import Mathlib

/-!
Verification development for the AtmosHekateMonitor release checker
(`AtmosHekateMolnitor.py`).  The Python program is shallowly embedded:
pure helpers become Lean functions, JSON values become an inductive type,
the persisted config file becomes an explicit file-state value, exceptions
become `Option`/`Except` results, and the Qt main-window session becomes an
explicit state record with one Lean function per event handler.
-/

namespace AtmosHekateMonitor

/-- A JSON value, as produced by json.loads.  Numeric payloads are modeled
as integers; no claim depends on fractional numbers. -/
inductive Json where
  | null
  | bool (b : Bool)
  | num (n : Int)
  | str (s : String)
  | arr (xs : List Json)
  | obj (kvs : List (String × Json))
deriving Repr

/-- Python truthiness of a JSON value (None, False, 0, empty string, empty
list and empty dict are falsy). -/
def Json.truthy : Json → Bool
  | .null => false
  | .bool b => b
  | .num n => n != 0
  | .str s => s != ""
  | .arr xs => !xs.isEmpty
  | .obj kvs => !kvs.isEmpty

/-- Whether a JSON value is a string. -/
def Json.isStr : Json → Bool
  | .str _ => true
  | _ => false

/-- Dict field access on a JSON value: `j[k]` for object `j`, `none` for
missing keys or non-object values. -/
def Json.field (j : Json) (k : String) : Option Json :=
  match j with
  | .obj kvs => kvs.lookup k
  | _ => none

/-- Whether `needle` is a prefix of `hay` (character lists). -/
def isSubstringAt : List Char → List Char → Bool
  | [], _ => true
  | _ :: _, [] => false
  | n :: ns, h :: hs => (n == h) && isSubstringAt ns hs

/-- Whether `needle` occurs contiguously inside `hay` (character lists),
matching Python substring containment. -/
def hasSubstr (needle : List Char) : List Char → Bool
  | [] => needle.isEmpty
  | h :: hs => isSubstringAt needle (h :: hs) || hasSubstr needle hs

/-- Python membership test `k in j` for a string `k`: key membership for a
dict, element equality for a list, substring containment for a string, and
a TypeError (modeled as `none`) for every other value. -/
def pyContainsStr (j : Json) (k : String) : Option Bool :=
  match j with
  | .obj kvs => some (kvs.lookup k).isSome
  | .arr xs => some (xs.any fun v => match v with | .str s => s == k | _ => false)
  | .str s => some (hasSubstr k.toList s.toList)
  | _ => none

/-- Python dict assignment `d[k] = v`: replaces the value in place when the
key exists (keeping its position, as insertion order is preserved), appends
the pair otherwise. -/
def dictSet (kvs : List (String × Json)) (k : String) (v : Json) :
    List (String × Json) :=
  if (kvs.lookup k).isSome then
    kvs.map fun p => if p.1 = k then (k, v) else p
  else kvs ++ [(k, v)]

/-- The observable state of the persisted config file, as the loading code
can encounter it: absent, present but failing open/read/json.loads, or
successfully parsed to a JSON value. -/
inductive FileRead where
  | missing
  | unreadable
  | parsed (j : Json)
deriving Repr

/-- The default config value, a dict with an empty local_versions dict. -/
def emptyConfig : Json := .obj [("local_versions", .obj [])]

/-- load_config (lines 70-80): returns the default on a missing file or any
exception; for parsed data, the membership test `"local_versions" not in
data` follows Python semantics per type, the key is added when the test
says it is absent (raising, hence defaulting, on non-dicts), and the data
is returned as-is when the test succeeds.  Every exception is caught, so
the function is total. -/
def load_config : FileRead → Json
  | .missing => emptyConfig
  | .unreadable => emptyConfig
  | .parsed j =>
    match pyContainsStr j "local_versions" with
    | none => emptyConfig
    | some true => j
    | some false =>
      match j with
      | .obj kvs => .obj (kvs ++ [("local_versions", .obj [])])
      | _ => emptyConfig

/-- save_config (lines 83-88): json.dump of the in-memory config over the
persisted file.  Serializing a JSON value and re-parsing it yields the same
value, so a successful save is modeled as the file now parsing to `config`;
an I/O failure (modeled by `ok = false`) is caught and only printed, so the
caller always continues, and the file is modeled as keeping its previous
state. -/
def save_config (config : Json) (ok : Bool) (file : FileRead) : FileRead :=
  if ok then .parsed config else file

/-- The normalized release record produced by fetch_latest_release: the
returned dict always carries these five string fields. -/
structure ReleaseInfo where
  tag : String
  name : String
  body : String
  html_url : String
  published_at : String
deriving DecidableEq, Repr

/-- The two failure classes of the fetcher, distinguished by the message
prefix of the RuntimeError it raises: URLError is re-raised with the
message Network error, every other exception with the message Error. -/
inductive FetchError where
  | Network (detail : String)
  | Protocol (detail : String)
deriving DecidableEq, Repr

/-- What a single run of the fetch try-block can encounter: the request,
read, decode and json.loads all succeeded with a top-level JSON object
(field extraction then runs on it), or urlopen/read raised a URLError, or
some other exception was raised anywhere in the block (connection reads
raising non-URLError errors, json.loads on malformed payloads, a non-dict
top-level value, a truthy non-string field value). -/
inductive FetchInput where
  | parsedObject (kvs : List (String × Json))
  | raisedURLError (detail : String)
  | raisedOther (detail : String)
deriving Repr

/-- Python type name of a JSON value, used to abstract the text of the
AttributeError raised by `.strip()` on a non-string.  The exact exception
text is immaterial to every claim; it is abstracted to the offending type
name. -/
def pyTypeName : Json → String
  | .null => "NoneType"
  | .bool _ => "bool"
  | .num _ => "int"
  | .str _ => "str"
  | .arr _ => "list"
  | .obj _ => "dict"

/-- The whitespace characters removed by Python str.strip (ASCII set). -/
def pyIsSpace (c : Char) : Bool :=
  c == ' ' || c == '\t' || c == '\n' || c == '\r' || c == '\x0b' || c == '\x0c'

/-- Python str.strip without arguments: removes leading and trailing
whitespace.  Implemented over the character list so that it evaluates. -/
def pyStrip (s : String) : String :=
  ⟨((s.toList.dropWhile pyIsSpace).reverse.dropWhile pyIsSpace).reverse⟩

/-- One field extraction `(obj.get(k) or "").strip()` (lines 108-112): a
missing key or falsy value (null, False, 0, empty string/list/dict) yields
the stripped empty string; a truthy string is stripped; a truthy non-string
raises AttributeError (modeled as `.error` with the offending type name). -/
def pyGetOrEmptyStrip (kvs : List (String × Json)) (k : String) :
    Except String String :=
  match kvs.lookup k with
  | none => .ok ""
  | some v =>
    if v.truthy then
      match v with
      | .str s => .ok (pyStrip s)
      | _ => .error (pyTypeName v)
    else .ok ""

/-- The field-extraction block of fetch_latest_release, evaluated in source
order; the first failing extraction aborts the block with its exception. -/
def parseReleaseObj (kvs : List (String × Json)) : Except String ReleaseInfo := do
  let tag ← pyGetOrEmptyStrip kvs "tag_name"
  let name ← pyGetOrEmptyStrip kvs "name"
  let body ← pyGetOrEmptyStrip kvs "body"
  let html_url ← pyGetOrEmptyStrip kvs "html_url"
  let published_at ← pyGetOrEmptyStrip kvs "published_at"
  pure { tag, name, body, html_url, published_at }

/-- fetch_latest_release (lines 95-123): on success the normalized record;
a URLError is re-raised as a RuntimeError with the message prefix
Network error (modeled as FetchError.Network), and any other exception as a
RuntimeError with the prefix Error (modeled as FetchError.Protocol). -/
def fetch_latest_release : FetchInput → Except FetchError ReleaseInfo
  | .raisedURLError d => .error (.Network ("Network error: " ++ d))
  | .raisedOther d => .error (.Protocol ("Error: " ++ d))
  | .parsedObject kvs =>
    match parseReleaseObj kvs with
    | .ok r => .ok r
    | .error m => .error (.Protocol ("Error: " ++ m))

/-- The outcome classification of a completed successful check, one value
per status string of on_fetch_success: NoLocalVersion renders as the text
Local version not set, UpToDate as You are up to date, UpdateAvailable as
New version available, Indeterminate as Could not determine latest version;
Failed models on_fetch_error. -/
inductive CheckOutcome where
  | NoLocalVersion
  | UpToDate
  | UpdateAvailable (tag : String)
  | Indeterminate
  | Failed (msg : String)
deriving DecidableEq, Repr

/-- Python inequality `tag != local` between the fetched tag (a string) and
the stored local value (an arbitrary JSON value): string comparison when
the stored value is a string, always unequal otherwise. -/
def pyNeStr (tag : String) (lv : Json) : Bool :=
  match lv with
  | .str s => tag != s
  | _ => true

/-- The comparison block of on_fetch_success (lines 449 and 474-492), as a
function of the stored local value for the project key (`none` when the
store has no entry) and the tag field of the fetched release.  Line 449
replaces an empty fetched tag by the sentinel Unknown before the
comparison runs. -/
def on_fetch_success_status (localVal : Option Json) (relTag : String) :
    CheckOutcome :=
  let tag := if relTag = "" then "Unknown" else relTag
  match localVal with
  | none => .NoLocalVersion
  | some lv =>
    if lv.truthy then
      if tag ≠ "Unknown" ∧ tag ≠ "" then
        if pyNeStr tag lv then .UpdateAvailable tag else .UpToDate
      else .Indeterminate
    else .NoLocalVersion

/-- One entry of the PROJECTS table (lines 50-63). -/
structure ProjectInfo where
  key : String
  api_url : String
  page_url : String
  hos_support : String
deriving DecidableEq, Repr

/-- The PROJECTS table: display name to project record, in declaration
order. -/
def PROJECTS : List (String × ProjectInfo) :=
  [("Atmosphere",
    { key := "atmosphere"
      api_url := "https://api.github.com/repos/Atmosphere-NX/Atmosphere/releases/latest"
      page_url := "https://github.com/Atmosphere-NX/Atmosphere/releases/latest"
      hos_support := "Latest supported HOS: 20.5.0 (Basic support)" }),
   ("Hekate",
    { key := "hekate"
      api_url := "https://api.github.com/repos/CTCaer/hekate/releases/latest"
      page_url := "https://github.com/CTCaer/hekate/releases/latest"
      hos_support := "Latest supported HOS: 20.5.0" })]

/-- The data fields of MainWindow relevant to the check/commit workflow
(lines 154-157); UI widgets and the thread handle are modeled separately. -/
structure AppState where
  config : Json
  current_project_name : String
  current_release_info : Option ReleaseInfo
deriving Repr

/-- get_local_version_for_project (lines 397-398):
`config.get("local_versions", \x7b\x7d).get(project_key)`.  The outer
`none` models the uncaught AttributeError hit when the config is not a
dict or its local_versions value is not a dict; otherwise the inner option
is the stored value for the key (`none` when the key was never set). -/
def get_local_version_for_project (config : Json) (key : String) :
    Option (Option Json) :=
  match config with
  | .obj kvs =>
    match kvs.lookup "local_versions" with
    | none => some none
    | some (.obj lv) => some (lv.lookup key)
    | some _ => none
  | _ => none

/-- Lines 401-402 of set_local_version_for_project: add an empty
local_versions dict when the key is absent. -/
def ensure_local_versions (kvs : List (String × Json)) :
    List (String × Json) :=
  if (kvs.lookup "local_versions").isSome then kvs
  else kvs ++ [("local_versions", Json.obj [])]

/-- set_local_version_for_project (lines 400-404), without the trailing
save call: stores the version string under the key inside the
local_versions dict.  `none` models the uncaught TypeError hit when the
config is not a dict or its local_versions value is not a dict. -/
def set_local_version_for_project (config : Json) (key version : String) :
    Option Json :=
  match config with
  | .obj kvs =>
    match (ensure_local_versions kvs).lookup "local_versions" with
    | some (.obj lv) =>
      some (.obj (dictSet (ensure_local_versions kvs) "local_versions"
        (.obj (dictSet lv key (.str version)))))
    | _ => none
  | _ => none

/-- set_local_version_for_project including its synchronous save_config
call (line 404): the pair of the new in-memory config and the resulting
file state; `ok` is whether the write succeeded. -/
def set_local_version_and_save (config : Json) (key version : String)
    (ok : Bool) (file : FileRead) : Option (Json × FileRead) :=
  (set_local_version_for_project config key version).map
    fun c2 => (c2, save_config c2 ok file)

/-- on_project_changed (lines 421-428): records the new selection.  The
handler resets labels and the changelog text but does NOT touch
current_release_info, which keeps the data of the previous fetch. -/
def on_project_changed (s : AppState) (name : String) : AppState :=
  { s with current_project_name := name }

/-- on_fetch_success (lines 445-495) restricted to its state effect and
outcome: stores the fetched record as current_release_info, then
classifies the check against the stored local version of the currently
selected project.  `none` models the uncaught KeyError/AttributeError on
an unknown project name or a malformed config. -/
def on_fetch_success_app (s : AppState) (rel : ReleaseInfo) :
    Option (AppState × CheckOutcome) :=
  let s1 := { s with current_release_info := some rel }
  match PROJECTS.lookup s1.current_project_name with
  | none => none
  | some info =>
    match get_local_version_for_project s1.config info.key with
    | none => none
    | some localJ => some (s1, on_fetch_success_status localJ rel.tag)

/-- The observable result of set_local_to_latest: the two early-return
warning dialogs, or a completed commit of the given tag. -/
inductive CommitResult where
  | noReleaseData
  | unknownTag
  | committed (tag : String)
deriving DecidableEq, Repr

/-- set_local_to_latest (lines 506-528): warns (and leaves the store
untouched) when no release info exists in the session or when its tag is
empty or the sentinel Unknown; otherwise writes the tag under the key of
the CURRENTLY selected project.  `none` models an uncaught exception
(unknown project name or malformed config). -/
def set_local_to_latest (s : AppState) : Option (AppState × CommitResult) :=
  match s.current_release_info with
  | none => some (s, .noReleaseData)
  | some rel =>
    if rel.tag = "" ∨ rel.tag = "Unknown" then some (s, .unknownTag)
    else
      match PROJECTS.lookup s.current_project_name with
      | none => none
      | some info =>
        match set_local_version_for_project s.config info.key rel.tag with
        | none => none
        | some c2 => some ({ s with config := c2 }, .committed rel.tag)

/-- The concurrency-guard view of MainWindow: whether self.fetch_thread
holds a live (running) thread, and how many fetches are actually in
flight. -/
structure GuardState where
  fetchThreadRunning : Bool
  inFlight : Nat
deriving DecidableEq, Repr

/-- start_check (lines 430-443): a no-op while the recorded thread is
running (lines 431-432), otherwise spawns exactly one new fetch and
records it. -/
def start_check (s : GuardState) : GuardState :=
  if s.fetchThreadRunning then s
  else { fetchThreadRunning := true, inFlight := s.inFlight + 1 }

/-- Completion of the in-flight fetch: both completion handlers (lines 446
and 498) clear self.fetch_thread, and the fetch leaves flight. -/
def fetch_completed (s : GuardState) : GuardState :=
  { fetchThreadRunning := false, inFlight := s.inFlight - 1 }

/-- The guard states reachable in a session: from the fresh state (no
thread, nothing in flight, before the automatic startup check) via
start_check calls and completions of the running fetch.  The completion
signal is processed atomically with thread termination. -/
inductive GuardReachable : GuardState → Prop where
  | init : GuardReachable { fetchThreadRunning := false, inFlight := 0 }
  | step_check : ∀ {s}, GuardReachable s → GuardReachable (start_check s)
  | step_done : ∀ {s}, GuardReachable s → s.fetchThreadRunning = true →
      GuardReachable (fetch_completed s)

/-- Modelled from the spec: the comparison table of the specification,
over the stored local version (string, or `none` when the store has no
entry) and the fetched tag — no entry gives NoLocalVersion, an empty tag
gives Indeterminate, a differing tag gives UpdateAvailable, an equal tag
gives UpToDate. -/
def spec_check_outcome (localVer : Option String) (tag : String) :
    CheckOutcome :=
  match localVer with
  | none => .NoLocalVersion
  | some l =>
    if tag = "" then .Indeterminate
    else if tag ≠ l then .UpdateAvailable tag
    else .UpToDate

/-- The comparison table as the code actually implements it: an empty
stored value behaves like a missing entry, and a fetched tag that is empty
or equal to the sentinel string Unknown gives Indeterminate. -/
def amended_check_outcome (localVer : Option String) (tag : String) :
    CheckOutcome :=
  match localVer with
  | none => .NoLocalVersion
  | some l =>
    if l = "" then .NoLocalVersion
    else if tag = "" ∨ tag = "Unknown" then .Indeterminate
    else if tag ≠ l then .UpdateAvailable tag
    else .UpToDate

/-- Modelled from the spec: extraction of one field as the specification
states it — the trimmed string when the field is a string, the empty
string otherwise. -/
def trimOrEmpty : Option Json → String
  | some (.str s) => pyStrip s
  | _ => ""

/-- A response field is structurally valid when it is absent, null, or a
string. -/
def validField : Option Json → Bool
  | none => true
  | some .null => true
  | some (.str _) => true
  | some _ => false

/-- A response record is structurally valid when each of the five fields
of interest is absent, null, or a string. -/
def structValid (kvs : List (String × Json)) : Bool :=
  validField (kvs.lookup "tag_name") && validField (kvs.lookup "name") &&
  validField (kvs.lookup "body") && validField (kvs.lookup "html_url") &&
  validField (kvs.lookup "published_at")

/-- Whether a parsed JSON value carries the expected local_versions
substructure: an object whose local_versions entry is itself an object. -/
def hasLVMapping : Json → Bool
  | .obj kvs =>
    match kvs.lookup "local_versions" with
    | some (.obj _) => true
    | _ => false
  | _ => false

/-- Whether a config value has an empty local_versions mapping. -/
def localVersionsEmpty (c : Json) : Bool :=
  match c with
  | .obj kvs =>
    match kvs.lookup "local_versions" with
    | some (.obj l) => l.isEmpty
    | _ => false
  | _ => false

/-- The local_versions entry of a config value for one key, `none` when
the config has no local_versions mapping or the key is unset. -/
def lvEntry (c : Json) (k : String) : Option Json :=
  match c.field "local_versions" with
  | some (.obj lv) => lv.lookup k
  | _ => none

/-- Whether a fetch error is of the Network kind (it is of the Protocol
kind otherwise — the type has exactly these two constructors). -/
def FetchError.isNetwork : FetchError → Bool
  | .Network _ => true
  | .Protocol _ => false

/-- The detail message carried by a fetch error. -/
def FetchError.detail : FetchError → String
  | .Network d => d
  | .Protocol d => d

/-- Whether a fetch run failed at the transport level, i.e. raised a
URLError (DNS, connection refused, TLS failure, timeout surface as
URLError from urlopen). -/
def FetchInput.isURLError : FetchInput → Bool
  | .raisedURLError _ => true
  | _ => false

/-! Helper lemmas about dict operations. -/

theorem lookup_mapSet_ne (kvs : List (String × Json)) (k : String) (v : Json)
    (k' : String) (h : k' ≠ k) :
    (kvs.map fun p => if p.1 = k then (k, v) else p).lookup k' =
      kvs.lookup k' := by
  induction kvs with
  | nil => simp
  | cons p rest ih =>
    obtain ⟨k1, v1⟩ := p
    by_cases hp : k1 = k
    · subst hp
      simp [List.lookup_cons, beq_false_of_ne h, ih]
    · by_cases h2 : k' = k1
      · subst h2
        simp [List.lookup_cons, hp]
      · simp [List.lookup_cons, hp, beq_false_of_ne h2, ih]

theorem lookup_mapSet_self (kvs : List (String × Json)) (k : String)
    (v : Json) (h : (kvs.lookup k).isSome) :
    (kvs.map fun p => if p.1 = k then (k, v) else p).lookup k = some v := by
  induction kvs with
  | nil => simp at h
  | cons p rest ih =>
    obtain ⟨k1, v1⟩ := p
    by_cases hp : k1 = k
    · subst hp
      simp [List.lookup_cons]
    · have hne : (k == k1) = false := beq_false_of_ne fun he => hp he.symm
      simp only [List.lookup_cons, hne] at h
      simp [List.lookup_cons, hp, hne, ih h]

theorem dictSet_lookup_self (kvs : List (String × Json)) (k : String)
    (v : Json) : (dictSet kvs k v).lookup k = some v := by
  unfold dictSet
  cases hv : kvs.lookup k with
  | none => simp [hv, List.lookup_append]
  | some v0 =>
    simp only [hv, Option.isSome_some, if_true]
    exact lookup_mapSet_self kvs k v (by simp [hv])

theorem dictSet_lookup_ne (kvs : List (String × Json)) (k : String)
    (v : Json) (k' : String) (h : k' ≠ k) :
    (dictSet kvs k v).lookup k' = kvs.lookup k' := by
  unfold dictSet
  cases hv : kvs.lookup k with
  | none =>
    simp [hv, List.lookup_append, List.lookup_cons, beq_false_of_ne h]
  | some v0 =>
    simp only [hv, Option.isSome_some, if_true]
    exact lookup_mapSet_ne kvs k v k' h

theorem ensure_lookup_ne (kvs : List (String × Json)) (k : String)
    (h : k ≠ "local_versions") :
    (ensure_local_versions kvs).lookup k = kvs.lookup k := by
  unfold ensure_local_versions
  cases hv : kvs.lookup "local_versions" with
  | none =>
    simp [hv, List.lookup_append, List.lookup_cons, beq_false_of_ne h]
  | some v0 => simp [hv]

theorem ensure_lookup_self (kvs : List (String × Json)) :
    (ensure_local_versions kvs).lookup "local_versions" =
      some ((kvs.lookup "local_versions").getD (Json.obj [])) := by
  unfold ensure_local_versions
  cases hv : kvs.lookup "local_versions" with
  | none => simp [hv, List.lookup_append]
  | some v0 => simp [hv]

/-! Claim theorems. -/

/-- Claim C1 counterexample: the comparison of on_fetch_success does not follow
the claimed table on two families of inputs.  A fetched tag equal to the
literal sentinel string Unknown is classified Indeterminate although it is
non-empty and differs from the stored version, and an empty stored version
is classified NoLocalVersion although the store has an entry for the key;
the claimed table gives UpdateAvailable in both cases. -/
theorem c1_comparison_counterexample :
    on_fetch_success_status (some (.str "1.0.0")) "Unknown" =
        CheckOutcome.Indeterminate
    ∧ spec_check_outcome (some "1.0.0") "Unknown" =
        CheckOutcome.UpdateAvailable "Unknown"
    ∧ on_fetch_success_status (some (.str "")) "1.2.0" =
        CheckOutcome.NoLocalVersion
    ∧ spec_check_outcome (some "") "1.2.0" =
        CheckOutcome.UpdateAvailable "1.2.0"
    ∧ on_fetch_success_status (some (.str "1.0.0")) "Unknown" ≠
        spec_check_outcome (some "1.0.0") "Unknown" := by
  refine ⟨rfl, rfl, rfl, rfl, ?_⟩
  decide

/-- Claim C1 (amended): for every stored local version and fetched tag, the
outcome of a completed successful fetch is: NoLocalVersion when the store
has no entry for the project key or the stored value is empty; otherwise
Indeterminate when the fetched tag is empty or equals the literal string
Unknown; otherwise UpdateAvailable(tag) when the tag differs from the
stored version; otherwise UpToDate. -/
theorem c1_comparison_amended (localVer : Option String) (tag : String) :
    on_fetch_success_status (localVer.map Json.str) tag =
      amended_check_outcome localVer tag := by
  cases localVer with
  | none => rfl
  | some l =>
    by_cases hl : l = "" <;> by_cases ht : tag = "" <;>
      by_cases hu : tag = "Unknown" <;> by_cases he : tag = l <;>
      simp_all [on_fetch_success_status, amended_check_outcome, Json.truthy,
        pyNeStr]

/-- Claim C8 counterexample: the store itself distinguishes a missing entry from
an empty-string entry (get returns None for the first and the empty string
for the second), but the comparison of the check workflow does NOT respect
the distinction: with an empty-string stored value it classifies exactly as
with a missing entry (NoLocalVersion), against the second half of the
claim. -/
theorem c8_distinction_counterexample :
    get_local_version_for_project (.obj [("local_versions", .obj [])])
        "atmosphere" = some none
    ∧ get_local_version_for_project
        (.obj [("local_versions", .obj [("atmosphere", .str "")])])
        "atmosphere" = some (some (.str ""))
    ∧ on_fetch_success_status (some (.str "")) "1.2.0" =
        on_fetch_success_status none "1.2.0" :=
  ⟨rfl, rfl, rfl⟩

/-- Claim C8 (amended): the local store distinguishes absence of a key from an
empty-string value (get returns None for a missing key and the stored
empty string for an empty-string entry), but the comparison of the check
workflow treats the two identically: an empty-string stored value
classifies as NoLocalVersion for every fetched tag, the same as a missing
entry. -/
theorem c8_distinction_amended (lv : List (String × Json))
    (key tag : String) :
    (lv.lookup key = none →
      get_local_version_for_project (.obj [("local_versions", .obj lv)]) key
        = some none)
    ∧ (lv.lookup key = some (.str "") →
      get_local_version_for_project (.obj [("local_versions", .obj lv)]) key
        = some (some (.str "")))
    ∧ on_fetch_success_status (some (.str "")) tag =
        on_fetch_success_status none tag
    ∧ on_fetch_success_status (some (.str "")) tag =
        CheckOutcome.NoLocalVersion := by
  refine ⟨fun h => ?_, fun h => ?_, ?_, ?_⟩
  · simp [get_local_version_for_project, h]
  · simp [get_local_version_for_project, h]
  · simp [on_fetch_success_status, Json.truthy]
  · simp [on_fetch_success_status, Json.truthy]

/-- Claim C8 witness: a concrete instance of the amended theorem. -/
theorem c8_distinction_witness :
    get_local_version_for_project (.obj [("local_versions", .obj [])])
        "atmosphere" = some none
    ∧ on_fetch_success_status (some (.str "")) "1.2.0" =
        CheckOutcome.NoLocalVersion := by
  have h := c8_distinction_amended [] "atmosphere" "1.2.0"
  exact ⟨h.1 rfl, h.2.2.2⟩

/-- Inversion of a completed set_local_version_for_project call: the
config was a dict whose local_versions value was a dict (possibly just
added), and the result replaces that inner dict with the updated one. -/
theorem set_lv_shape (config : Json) (key version : String) (c2 : Json)
    (h : set_local_version_for_project config key version = some c2) :
    ∃ kvs lv, config = Json.obj kvs
      ∧ (ensure_local_versions kvs).lookup "local_versions" = some (.obj lv)
      ∧ c2 = .obj (dictSet (ensure_local_versions kvs) "local_versions"
          (.obj (dictSet lv key (.str version)))) := by
  cases config with
  | obj kvs =>
    have he : set_local_version_for_project (Json.obj kvs) key version =
        (match (ensure_local_versions kvs).lookup "local_versions" with
         | some (Json.obj lv) =>
           some (Json.obj (dictSet (ensure_local_versions kvs)
             "local_versions" (Json.obj (dictSet lv key (Json.str version)))))
         | _ => none) := rfl
    rw [he] at h
    cases hlv : (ensure_local_versions kvs).lookup "local_versions" with
    | none => rw [hlv] at h; simp at h
    | some v =>
      rw [hlv] at h
      cases v with
      | obj lv => exact ⟨kvs, lv, rfl, hlv, (Option.some.inj h).symm⟩
      | null => simp at h
      | bool b => simp at h
      | num n => simp at h
      | str s2 => simp at h
      | arr xs => simp at h
  | null => simp [set_local_version_for_project] at h
  | bool b => simp [set_local_version_for_project] at h
  | num n => simp [set_local_version_for_project] at h
  | str s => simp [set_local_version_for_project] at h
  | arr xs => simp [set_local_version_for_project] at h

/-- After a completed set, get for the same key returns the written
version string. -/
theorem set_lv_get_self (config : Json) (key version : String) (c2 : Json)
    (h : set_local_version_for_project config key version = some c2) :
    get_local_version_for_project c2 key = some (some (.str version)) := by
  obtain ⟨kvs, lv, -, -, rfl⟩ := set_lv_shape config key version c2 h
  simp [get_local_version_for_project, dictSet_lookup_self]

/-- Claim C2 counterexample: a successful fetch is delivered while Atmosphere is
selected (storing its release info in the session), the user then switches
to Hekate, and commit (set_local_to_latest) SUCCEEDS, writing the tag
fetched for Atmosphere under the key hekate — although the claim requires
every commit whose successful fetch belonged to a different project than
the one now selected to fail with NoReleaseDataError and leave the store
unchanged.  on_project_changed does not clear current_release_info. -/
theorem c2_commit_counterexample :
    (on_fetch_success_app
        { config := .obj [("local_versions", .obj [])]
          current_project_name := "Atmosphere"
          current_release_info := none }
        { tag := "1.3.0", name := "v1.3.0", body := "", html_url := ""
          published_at := "" }).bind
      (fun p => set_local_to_latest (on_project_changed p.1 "Hekate"))
    = some
      ({ config := .obj [("local_versions", .obj [("hekate", .str "1.3.0")])]
         current_project_name := "Hekate"
         current_release_info := some
           { tag := "1.3.0", name := "v1.3.0", body := "", html_url := ""
             published_at := "" } },
       .committed "1.3.0") := rfl

/-- Claim C2 (amended): set_local_to_latest succeeds exactly when the session
holds release info whose tag is neither empty nor the literal Unknown,
regardless of which project that fetch was issued for; on success the tag
is written under the key of the CURRENTLY selected project and reported as
committed; with no release info in the session it fails reporting no
release data, and with an empty or Unknown tag it fails reporting an
unknown version — in both failure cases the store is untouched. -/
theorem c2_commit_amended (s : AppState) (info : ProjectInfo)
    (hp : PROJECTS.lookup s.current_project_name = some info) :
    (s.current_release_info = none →
      set_local_to_latest s = some (s, .noReleaseData))
    ∧ (∀ rel, s.current_release_info = some rel →
        (rel.tag = "" ∨ rel.tag = "Unknown") →
        set_local_to_latest s = some (s, .unknownTag))
    ∧ (∀ rel c2, s.current_release_info = some rel → rel.tag ≠ "" →
        rel.tag ≠ "Unknown" →
        set_local_version_for_project s.config info.key rel.tag = some c2 →
        set_local_to_latest s =
            some ({ s with config := c2 }, .committed rel.tag)
          ∧ get_local_version_for_project c2 info.key =
            some (some (.str rel.tag))) := by
  refine ⟨fun h => ?_, fun rel h ht => ?_, fun rel c2 h ht1 ht2 hset => ?_⟩
  · simp [set_local_to_latest, h]
  · simp [set_local_to_latest, h, ht]
  · constructor
    · simp [set_local_to_latest, h, ht1, ht2, hp, hset]
    · exact set_lv_get_self s.config info.key rel.tag c2 hset

/-- Claim C2 witness: a concrete instance of the amended theorem, committing the
fetched tag under the selected project while Hekate is active. -/
theorem c2_commit_witness :
    set_local_to_latest
        { config := .obj [("local_versions", .obj [])]
          current_project_name := "Hekate"
          current_release_info := some
            { tag := "1.3.0", name := "v1.3.0", body := "", html_url := ""
              published_at := "" } }
      = some
        ({ config :=
             .obj [("local_versions", .obj [("hekate", .str "1.3.0")])]
           current_project_name := "Hekate"
           current_release_info := some
             { tag := "1.3.0", name := "v1.3.0", body := "", html_url := ""
               published_at := "" } },
         .committed "1.3.0")
    ∧ get_local_version_for_project
        (.obj [("local_versions", .obj [("hekate", .str "1.3.0")])]) "hekate"
      = some (some (.str "1.3.0")) := by
  have h := (c2_commit_amended
    { config := .obj [("local_versions", .obj [])]
      current_project_name := "Hekate"
      current_release_info := some
        { tag := "1.3.0", name := "v1.3.0", body := "", html_url := ""
          published_at := "" } }
    { key := "hekate"
      api_url := "https://api.github.com/repos/CTCaer/hekate/releases/latest"
      page_url := "https://github.com/CTCaer/hekate/releases/latest"
      hos_support := "Latest supported HOS: 20.5.0" }
    rfl).2.2
    { tag := "1.3.0", name := "v1.3.0", body := "", html_url := ""
      published_at := "" }
    (.obj [("local_versions", .obj [("hekate", .str "1.3.0")])])
    rfl (by decide) (by decide) rfl
  exact h

/-- Invariant of the guard state machine: the recorded running thread flag
tracks exactly whether one fetch is in flight. -/
theorem guard_invariant (s : GuardState) (h : GuardReachable s) :
    s.inFlight ≤ 1 ∧ (s.fetchThreadRunning = true ↔ s.inFlight = 1) := by
  induction h with
  | init => simp
  | @step_check s hs ih =>
    unfold start_check
    by_cases hb : s.fetchThreadRunning
    · simpa [hb] using ih
    · have h0 : s.inFlight ≠ 1 := fun he => hb (ih.2.mpr he)
      have hle := ih.1
      have h1 : s.inFlight = 0 := by omega
      simp [hb, h1]
  | @step_done s hs hrun ih =>
    have h1 : s.inFlight = 1 := ih.2.mp hrun
    simp [fetch_completed, h1]

/-- Claim C3: at every reachable guard state at most one fetch is in flight, and
calling start_check while the recorded thread is running returns the state
unchanged — no second fetch is spawned, queued or restarted. -/
theorem c3_mutual_exclusion (s : GuardState) (h : GuardReachable s) :
    s.inFlight ≤ 1 ∧
    (s.fetchThreadRunning = true →
      start_check s = s ∧ (start_check s).inFlight = s.inFlight) := by
  refine ⟨(guard_invariant s h).1, fun hb => ?_⟩
  constructor
  · simp [start_check, hb]
  · simp [start_check, hb]

/-- Claim C3 witness: the state with one running fetch is reachable (it is the
state right after the automatic startup check), and there start_check is a
no-op. -/
theorem c3_mutual_exclusion_witness :
    ({ fetchThreadRunning := true, inFlight := 1 } : GuardState).inFlight ≤ 1
    ∧ start_check { fetchThreadRunning := true, inFlight := 1 } =
        { fetchThreadRunning := true, inFlight := 1 } := by
  have hr : GuardReachable { fetchThreadRunning := true, inFlight := 1 } := by
    have h0 := GuardReachable.step_check GuardReachable.init
    simpa [start_check] using h0
  have h := c3_mutual_exclusion _ hr
  exact ⟨h.1, (h.2 rfl).1⟩

/-- Claim C4 counterexample: the parsed content is a JSON array containing the
string local_versions — content clearly lacking the expected
local_versions substructure — yet load_config returns it unchanged (the
Python membership test succeeds on the array), so the result does not have
an empty local_versions mapping; the same happens for an object whose
local_versions value is not a mapping. -/
theorem c4_load_default_counterexample :
    load_config (.parsed (.arr [.str "local_versions"])) =
        .arr [.str "local_versions"]
    ∧ hasLVMapping (.arr [.str "local_versions"]) = false
    ∧ localVersionsEmpty (load_config (.parsed (.arr [.str "local_versions"])))
        = false
    ∧ load_config (.parsed (.obj [("local_versions", .num 5)])) =
        .obj [("local_versions", .num 5)]
    ∧ localVersionsEmpty
        (load_config (.parsed (.obj [("local_versions", .num 5)]))) = false :=
  ⟨rfl, rfl, rfl, rfl, rfl⟩

/-- Claim C4 (amended): load_config never raises (it is total, every exception
being caught), and for a missing file, unparsable content, or content
parsing to a JSON object without a local_versions key it returns a state
with an empty (defaulted) local_versions mapping; however, any parsed
value on which the Python membership test for the string local_versions
succeeds — including objects whose local_versions value is not a mapping,
and arrays or strings containing it — is returned unchanged. -/
theorem c4_load_default_amended (fr : FileRead) (j : Json)
    (h1 : fr = .missing ∨ fr = .unreadable ∨
      ∃ kvs, fr = .parsed (.obj kvs) ∧ kvs.lookup "local_versions" = none)
    (h2 : pyContainsStr j "local_versions" = some true) :
    localVersionsEmpty (load_config fr) = true
    ∧ load_config (.parsed j) = j := by
  constructor
  · rcases h1 with rfl | rfl | ⟨kvs, rfl, hk⟩
    · rfl
    · rfl
    · simp [load_config, pyContainsStr, hk, localVersionsEmpty,
        List.lookup_append]
  · simp [load_config, h2]

/-- Claim C4 witness: a concrete instance of the amended theorem for a missing
file and a parsed object carrying a non-mapping local_versions value. -/
theorem c4_load_default_witness :
    localVersionsEmpty (load_config .missing) = true
    ∧ load_config (.parsed (.obj [("local_versions", .num 5)])) =
        .obj [("local_versions", .num 5)] :=
  c4_load_default_amended .missing (.obj [("local_versions", .num 5)])
    (Or.inl rfl) rfl

/-- Claim C5: saving a config whose local_versions entry is a mapping with
string values and then loading yields the original state back.  A save
that completes leaves the file parsing to the saved JSON value
(serialization of a JSON value re-parses to itself), and load returns a
parsed dict carrying a local_versions key unchanged. -/
theorem c5_round_trip (kvs lv : List (String × Json)) (file : FileRead)
    (h1 : kvs.lookup "local_versions" = some (.obj lv))
    (_h2 : lv.all (fun p => p.2.isStr) = true) :
    load_config (save_config (.obj kvs) true file) = .obj kvs := by
  simp [save_config, load_config, pyContainsStr, h1]

/-- Claim C5 witness: a concrete round trip through save and load. -/
theorem c5_round_trip_witness :
    load_config (save_config
        (.obj [("local_versions", .obj [("atmosphere", .str "1.7.1")])])
        true .missing)
      = .obj [("local_versions", .obj [("atmosphere", .str "1.7.1")])] :=
  c5_round_trip [("local_versions", .obj [("atmosphere", .str "1.7.1")])]
    [("atmosphere", .str "1.7.1")] .missing rfl rfl

/-- Claim C6: every failure of fetch_latest_release is classified into exactly
one of the two error kinds — it is a Network error precisely when the run
raised a URLError (the transport-level failure class: DNS, connection
refused, TLS failure, timeout), and a Protocol error for every non-network
failure (malformed payload, unexpected structure, any other exception) —
and the error always carries a non-empty detail message. -/
theorem c6_error_classification (i : FetchInput) (e : FetchError)
    (h : fetch_latest_release i = .error e) :
    e.isNetwork = i.isURLError ∧ 0 < e.detail.length := by
  cases i with
  | raisedURLError d =>
    simp only [fetch_latest_release, Except.error.injEq] at h
    subst h
    refine ⟨rfl, ?_⟩
    simp only [FetchError.detail, String.length_append]
    have hl : ("Network error: ").length = 15 := rfl
    omega
  | raisedOther d =>
    simp only [fetch_latest_release, Except.error.injEq] at h
    subst h
    refine ⟨rfl, ?_⟩
    simp only [FetchError.detail, String.length_append]
    have hl : ("Error: ").length = 7 := rfl
    omega
  | parsedObject kvs =>
    have he : fetch_latest_release (.parsedObject kvs) =
        (match parseReleaseObj kvs with
         | .ok r => .ok r
         | .error m => .error (.Protocol ("Error: " ++ m))) := rfl
    rw [he] at h
    cases hpr : parseReleaseObj kvs with
    | ok r => rw [hpr] at h; simp at h
    | error m =>
      rw [hpr] at h
      simp only [Except.error.injEq] at h
      subst h
      refine ⟨rfl, ?_⟩
      simp only [FetchError.detail, String.length_append]
      have hl : ("Error: ").length = 7 := rfl
      omega

/-- Claim C6 witness: a concrete transport failure classified as Network. -/
theorem c6_error_classification_witness :
    (FetchError.Network ("Network error: " ++ "timed out")).isNetwork =
        (FetchInput.raisedURLError "timed out").isURLError
    ∧ 0 < (FetchError.Network ("Network error: " ++ "timed out")).detail.length
    := by
  exact c6_error_classification (.raisedURLError "timed out")
    (.Network ("Network error: " ++ "timed out")) rfl

/-- Under a structurally valid field, the extraction never raises and
returns exactly the trimmed string (or the empty default). -/
theorem pyGetOrEmptyStrip_valid (kvs : List (String × Json)) (k : String)
    (h : validField (kvs.lookup k) = true) :
    pyGetOrEmptyStrip kvs k = .ok (trimOrEmpty (kvs.lookup k)) := by
  unfold pyGetOrEmptyStrip trimOrEmpty
  cases hl : kvs.lookup k with
  | none => simp
  | some v =>
    rw [hl] at h
    cases v with
    | null => simp [Json.truthy]
    | str s =>
      by_cases hs : s = ""
      · subst hs; rfl
      · simp [Json.truthy, hs]
    | bool b => simp [validField] at h
    | num n => simp [validField] at h
    | arr xs => simp [validField] at h
    | obj kvs2 => simp [validField] at h

/-- Claim C7: for every structurally valid response record (each of the five
fields of interest absent, null, or a string), fetch_latest_release
succeeds and extracts each field independently — absent or null becomes
the empty string, and every extracted string is stripped of leading and
trailing whitespace; the returned record carries all five fields as
strings. -/
theorem c7_field_extraction (kvs : List (String × Json))
    (h : structValid kvs = true) :
    fetch_latest_release (.parsedObject kvs) = .ok
      { tag := trimOrEmpty (kvs.lookup "tag_name")
        name := trimOrEmpty (kvs.lookup "name")
        body := trimOrEmpty (kvs.lookup "body")
        html_url := trimOrEmpty (kvs.lookup "html_url")
        published_at := trimOrEmpty (kvs.lookup "published_at") } := by
  unfold structValid at h
  simp only [Bool.and_eq_true] at h
  obtain ⟨⟨⟨⟨h1, h2⟩, h3⟩, h4⟩, h5⟩ := h
  have e1 := pyGetOrEmptyStrip_valid kvs "tag_name" h1
  have e2 := pyGetOrEmptyStrip_valid kvs "name" h2
  have e3 := pyGetOrEmptyStrip_valid kvs "body" h3
  have e4 := pyGetOrEmptyStrip_valid kvs "html_url" h4
  have e5 := pyGetOrEmptyStrip_valid kvs "published_at" h5
  have he : fetch_latest_release (.parsedObject kvs) =
      (match parseReleaseObj kvs with
       | .ok r => .ok r
       | .error m => .error (.Protocol ("Error: " ++ m))) := rfl
  rw [he]
  unfold parseReleaseObj
  rw [e1, e2, e3, e4, e5]
  rfl

/-- Claim C7 witness: a record with a padded tag, a null name and unrelated
extra fields parses to the trimmed tag and empty defaults. -/
theorem c7_field_extraction_witness :
    fetch_latest_release (.parsedObject
        [("tag_name", .str " v1.2 "), ("name", .null), ("extra", .num 7)])
      = .ok { tag := "v1.2", name := "", body := "", html_url := ""
              published_at := "" } := by
  exact c7_field_extraction
    [("tag_name", .str " v1.2 "), ("name", .null), ("extra", .num 7)] rfl

/-- Claim C9: the in-memory result of set_local_version_for_project does not
depend on whether the synchronous save succeeds — for either value of the
save outcome, the combined operation returns the same new config (the save
failure only affects the file state, is caught, and never rolls the
in-memory mapping back) — and the new config maps the key to the written
tag. -/
theorem c9_save_failure_nonfatal (config : Json) (key version : String)
    (c2 : Json) (ok : Bool) (file : FileRead)
    (h : set_local_version_for_project config key version = some c2) :
    set_local_version_and_save config key version ok file =
        some (c2, save_config c2 ok file)
    ∧ get_local_version_for_project c2 key = some (some (.str version)) :=
  ⟨by simp [set_local_version_and_save, h],
   set_lv_get_self config key version c2 h⟩

/-- Claim C9 witness: a concrete set whose save fails (ok = false): the
in-memory config still carries the tag, the file keeps its old state. -/
theorem c9_save_failure_nonfatal_witness :
    set_local_version_and_save (.obj [("local_versions", .obj [])])
        "atmosphere" "1.2.0" false .missing =
      some (.obj [("local_versions", .obj [("atmosphere", .str "1.2.0")])],
        .missing)
    ∧ get_local_version_for_project
        (.obj [("local_versions", .obj [("atmosphere", .str "1.2.0")])])
        "atmosphere" = some (some (.str "1.2.0")) :=
  c9_save_failure_nonfatal (.obj [("local_versions", .obj [])]) "atmosphere"
    "1.2.0" (.obj [("local_versions", .obj [("atmosphere", .str "1.2.0")])])
    false .missing rfl

/-- Claim C10: setting the local version for a key changes only that key — every
other top-level config field keeps its value (so unknown fields loaded
from the persisted file survive the mutation), every other key of the
local_versions mapping keeps its value, and the successful re-save writes
exactly the mutated config to the file (preserving those fields on disk
too). -/
theorem c10_set_frame (config : Json) (key version : String) (c2 : Json)
    (k k2 : String) (file : FileRead)
    (h : set_local_version_for_project config key version = some c2)
    (hk : k ≠ "local_versions") (hk2 : k2 ≠ key) :
    c2.field k = config.field k
    ∧ lvEntry c2 k2 = lvEntry config k2
    ∧ set_local_version_and_save config key version true file =
        some (c2, .parsed c2) := by
  obtain ⟨kvs, lv, hcfg, hlv, hc2⟩ := set_lv_shape config key version c2 h
  subst hcfg
  refine ⟨?_, ?_, ?_⟩
  · rw [hc2]
    simp only [Json.field]
    rw [dictSet_lookup_ne _ _ _ _ hk, ensure_lookup_ne _ _ hk]
  · rw [hc2]
    unfold lvEntry
    simp only [Json.field, dictSet_lookup_self]
    rw [dictSet_lookup_ne _ _ _ _ hk2]
    have hg : some ((kvs.lookup "local_versions").getD (Json.obj [])) =
        some (Json.obj lv) := (ensure_lookup_self kvs).symm.trans hlv
    have hg2 := Option.some.inj hg
    cases hko : kvs.lookup "local_versions" with
    | none =>
      rw [hko] at hg2
      simp only [Option.getD_none] at hg2
      obtain rfl : lv = [] := (Json.obj.inj hg2).symm
      simp
    | some v =>
      rw [hko] at hg2
      simp only [Option.getD_some] at hg2
      subst hg2
      rfl
  · simp [set_local_version_and_save, h, save_config]

/-- Claim C10 witness: a concrete frame instance — an unknown top-level field
and an unrelated project key survive the mutation, and the re-save writes
the mutated config. -/
theorem c10_set_frame_witness :
    (Json.obj [("theme", .str "dark"),
        ("local_versions",
          .obj [("hekate", .str "6.2.2"), ("atmosphere", .str "1.8.0")])]).field
        "theme" =
      (Json.obj [("theme", .str "dark"),
        ("local_versions", .obj [("hekate", .str "6.2.2")])]).field "theme"
    ∧ lvEntry (.obj [("theme", .str "dark"),
        ("local_versions",
          .obj [("hekate", .str "6.2.2"), ("atmosphere", .str "1.8.0")])])
        "hekate" =
      lvEntry (.obj [("theme", .str "dark"),
        ("local_versions", .obj [("hekate", .str "6.2.2")])]) "hekate"
    ∧ set_local_version_and_save
        (.obj [("theme", .str "dark"),
          ("local_versions", .obj [("hekate", .str "6.2.2")])])
        "atmosphere" "1.8.0" true .missing =
      some (.obj [("theme", .str "dark"),
          ("local_versions",
            .obj [("hekate", .str "6.2.2"), ("atmosphere", .str "1.8.0")])],
        .parsed (.obj [("theme", .str "dark"),
          ("local_versions",
            .obj [("hekate", .str "6.2.2"), ("atmosphere", .str "1.8.0")])]))
    := by
  exact c10_set_frame
    (.obj [("theme", .str "dark"),
      ("local_versions", .obj [("hekate", .str "6.2.2")])])
    "atmosphere" "1.8.0"
    (.obj [("theme", .str "dark"),
      ("local_versions",
        .obj [("hekate", .str "6.2.2"), ("atmosphere", .str "1.8.0")])])
    "theme" "hekate" .missing rfl (by decide) (by decide)

end AtmosHekateMonitor
